import Mathlib

/-!
Verification of the event-management backend core (users, events, bookings,
attendee memberships) against its specification.

The embedding models the persistence layer as an explicit `Store` value
(lists of rows plus auto-increment counters) and each service method as a
pure function `Store → ... → Except DomainError ...`.  A thrown framework
exception is an `Except.error`; since an error aborts the request before
any write, the caller's store is untouched on every error path.  External
collaborators (bcrypt hashing/comparison, JWT signing) are passed in as
function parameters.  Entity timestamp columns are carried only where an
observable behaviour depends on them (the user profile view).
-/

namespace EventBackend

/-- Booking status enum (`BookingStatus` in `booking.entity.ts`):
pending / confirmed / cancelled, default pending. -/
inductive BookingStatus
  | pending
  | confirmed
  | cancelled
deriving DecidableEq, Repr

/-- `User` entity (`user.entity.ts`): numeric generated id, unique email,
hashed password (a `select: false` column), display name, optional avatar
URL and origin world, alive flag, timestamps. -/
structure User where
  id : Nat
  email : String
  password : String
  displayName : String
  avatarUrl : Option String
  originWorld : Option String
  isAlive : Bool
  createdAt : Nat
  updatedAt : Nat
deriving DecidableEq, Repr

/-- `Event` entity (`event.entity.ts`): UUID id (modelled as `String`),
title, optional description and location, optional image paths, and the
many-to-many `attendees` relation (the `event_attendees` join table,
loaded as a list of users). -/
structure Event where
  id : String
  title : String
  description : Option String
  date : Nat
  location : Option String
  images : Option (List String)
  attendees : List User
deriving DecidableEq, Repr

/-- `Booking` entity (`booking.entity.ts`): numeric generated id, owning
`userId`, target `eventId`, status (default pending), optional notes. -/
structure Booking where
  id : Nat
  userId : Nat
  eventId : String
  status : BookingStatus
  notes : Option String
deriving DecidableEq, Repr

/-- The NestJS HTTP exceptions thrown by the services. -/
inductive DomainError
  | notFound (msg : String)
  | conflict (msg : String)
  | forbidden (msg : String)
  | unauthorized (msg : String)
  | badRequest (msg : String)
deriving DecidableEq, Repr

/-- HTTP status code carried by each exception class. -/
def DomainError.statusCode : DomainError → Nat
  | .notFound _ => 404
  | .conflict _ => 409
  | .forbidden _ => 403
  | .unauthorized _ => 401
  | .badRequest _ => 400

/-- Human-readable message carried by the exception. -/
def DomainError.message : DomainError → String
  | .notFound m => m
  | .conflict m => m
  | .forbidden m => m
  | .unauthorized m => m
  | .badRequest m => m

/-- The database: one list per table plus the auto-increment counters for
the generated numeric primary keys. -/
structure Store where
  users : List User
  events : List Event
  bookings : List Booking
  nextUserId : Nat
  nextBookingId : Nat
deriving Repr

/-- `eventRepository.findOne({ where: { id } })`. -/
def findEventById (s : Store) (id : String) : Option Event :=
  s.events.find? (fun e => e.id == id)

/-- `userRepository.findOne({ where: { id } })`. -/
def findUserById (s : Store) (id : Nat) : Option User :=
  s.users.find? (fun u => u.id == id)

/-- `userRepository.findOne({ where: { email } })`. -/
def findUserByEmail (s : Store) (email : String) : Option User :=
  s.users.find? (fun u => u.email == email)

/-- `bookingRepository.findOne({ where: { id } })`. -/
def findBookingById (s : Store) (id : Nat) : Option Booking :=
  s.bookings.find? (fun b => b.id == id)

/-- `bookingRepository.findOne({ where: { userId, eventId } })`. -/
def findBookingByUserAndEvent (s : Store) (userId : Nat) (eventId : String) :
    Option Booking :=
  s.bookings.find? (fun b => b.userId == userId && b.eventId == eventId)

/-- JavaScript `String.prototype.trim`: strip leading and trailing
whitespace (modelled on the character list of the string). -/
def jsTrim (cs : List Char) : List Char :=
  ((cs.dropWhile Char.isWhitespace).reverse.dropWhile Char.isWhitespace).reverse

/-- JavaScript `split(' ')`: split on every single space character, so a
run of `k` spaces yields `k - 1` empty words between the non-empty ones. -/
def splitOnSpace : List Char → List Char → List (List Char)
  | [], acc => [acc.reverse]
  | c :: cs, acc =>
    if c = ' ' then acc.reverse :: splitOnSpace cs []
    else splitOnSpace cs (c :: acc)

/-- JavaScript `word.charAt(0).toUpperCase() + word.slice(1)` on one word
(`''.charAt(0)` is the empty string, so empty words stay empty). -/
def capitalizeWord : List Char → List Char
  | [] => []
  | c :: cs => c.toUpper :: cs

/-- The title normalization performed by the `@BeforeInsert` /
`@BeforeUpdate` hooks of `event.entity.ts`:
`title.trim().toLowerCase().split(' ').map(capitalize).join(' ')`.
Since `split(' ')` splits on single spaces and `join(' ')` reinserts one
space per boundary, interior runs of spaces are preserved verbatim. -/
def normalizeTitle (t : String) : String :=
  String.mk
    (List.intercalate [' ']
      ((splitOnSpace ((jsTrim t.data).map Char.toLower) []).map capitalizeWord))

example : normalizeTitle "  conference   X  " = "Conference   X" := by decide

/-- The whole `@BeforeInsert` hook `normalizeBeforeInsert` of
`event.entity.ts`: normalize the title and trim location and description
when they are truthy (non-empty / present). -/
def normalizeBeforeInsert (e : Event) : Event :=
  { e with
    title := if e.title = "" then e.title else normalizeTitle e.title
    location :=
      match e.location with
      | none => none
      | some l => if l = "" then some l else some (String.mk (jsTrim l.data))
    description :=
      match e.description with
      | none => none
      | some d => if d = "" then some d else some (String.mk (jsTrim d.data)) }

/-- The `@BeforeUpdate` hook `normalizeBeforeUpdate` of `event.entity.ts`;
its body is identical to the insert hook. -/
def normalizeBeforeUpdate (e : Event) : Event :=
  normalizeBeforeInsert e

/-- `repository.save` on a new event row: the `@BeforeInsert` hook fires,
then the row is appended to the table. -/
def saveNewEvent (s : Store) (e : Event) : Store × Event :=
  let e' := normalizeBeforeInsert e
  ({ s with events := s.events ++ [e'] }, e')

/-- Replace the first event row whose id matches `e.id` (how
`repository.save` updates an existing row, keyed by primary key). -/
def replaceEventFirst : List Event → Event → List Event
  | [], _ => []
  | x :: xs, e => if x.id == e.id then e :: xs else x :: replaceEventFirst xs e

/-- `repository.save` on a loaded event row: the `@BeforeUpdate` hook
fires, then the row with the same primary key is overwritten. -/
def saveExistingEvent (s : Store) (e : Event) : Store × Event :=
  let e' := normalizeBeforeUpdate e
  ({ s with events := replaceEventFirst s.events e' }, e')

/-- `CreateEventDto` (texts plus `date`; image files handled separately). -/
structure CreateEventDto where
  title : String
  description : Option String
  date : Nat
  location : Option String
deriving Repr

/-- `UpdateEventDto`: every field optional. -/
structure UpdateEventDto where
  title : Option String
  description : Option String
  date : Option Nat
  location : Option String
deriving Repr

/-- `EventService.create`: build the entity from the DTO (plus the image
paths derived from the uploaded files) and save it; the insert hook
normalizes it on the way in. -/
def eventCreate (s : Store) (dto : CreateEventDto) (generatedId : String)
    (imagePaths : Option (List String)) : Store × Event :=
  let newEvent : Event :=
    { id := generatedId
      title := dto.title
      description := dto.description
      date := dto.date
      location := dto.location
      images := imagePaths
      attendees := [] }
  saveNewEvent s newEvent

/-- `EventService.update`: load the event (404 when absent), overwrite the
fields provided by the DTO, and save; the update hook normalizes again. -/
def eventUpdate (s : Store) (id : String) (dto : UpdateEventDto) :
    Except DomainError (Store × Event) :=
  match findEventById s id with
  | none => .error (.notFound ("Event with id " ++ id ++ " was not found"))
  | some existingEvent =>
    let updated : Event :=
      { existingEvent with
        title := dto.title.getD existingEvent.title
        description :=
          match dto.description with
          | some d => some d
          | none => existingEvent.description
        location :=
          match dto.location with
          | some l => some l
          | none => existingEvent.location
        date := dto.date.getD existingEvent.date }
    .ok (saveExistingEvent s updated)

/-- `EventService.registerUserToEvent`: load the event with its attendees
(404 when absent), load the user (404 when absent), reject when the id is
already in the attendee set (400), otherwise append the user and save. -/
def registerUserToEvent (s : Store) (eventId : String) (userId : Nat) :
    Except DomainError (Store × Event) :=
  match findEventById s eventId with
  | none => .error (.notFound ("Event with id " ++ eventId ++ " was not found"))
  | some event =>
    match findUserById s userId with
    | none =>
      .error (.notFound ("User with id " ++ toString userId ++ " was not found"))
    | some user =>
      if event.attendees.any (fun attendee => attendee.id == userId) then
        .error (.badRequest ("User with id " ++ toString userId ++
          " is already registered to event " ++ eventId))
      else
        let event' := { event with attendees := event.attendees ++ [user] }
        .ok (saveExistingEvent s event')

/-- `EventService.unregisterUserFromEvent`: load the event with attendees
(404 when absent), reject when the id is absent from the attendee set
(400), otherwise filter that id out and save. -/
def unregisterUserFromEvent (s : Store) (eventId : String) (userId : Nat) :
    Except DomainError (Store × Event) :=
  match findEventById s eventId with
  | none => .error (.notFound ("Event with id " ++ eventId ++ " was not found"))
  | some event =>
    if (event.attendees.findIdx? (fun attendee => attendee.id == userId)).isNone then
      .error (.badRequest ("User with id " ++ toString userId ++
        " is not registered to event " ++ eventId))
    else
      let event' :=
        { event with
          attendees := event.attendees.filter (fun attendee => !(attendee.id == userId)) }
      .ok (saveExistingEvent s event')

/-- `UpdateBookingDto`: optional status and optional notes — `userId` and
`eventId` are not part of the DTO, so `Object.assign` can only touch
`status` and `notes`. -/
structure UpdateBookingDto where
  status : Option BookingStatus
  notes : Option String
deriving Repr

/-- A booking returned with its `relations` loaded (`user` / `event`
populated by the repository from the foreign keys). -/
structure BookingJoined where
  booking : Booking
  user : Option User
  event : Option Event
deriving Repr

/-- Load a booking together with the requested relations, as
`findOne({ where: { id }, relations: ['user', 'event'] })` does. -/
def findBookingJoined (s : Store) (id : Nat) : Option BookingJoined :=
  match findBookingById s id with
  | none => none
  | some b =>
    some { booking := b, user := findUserById s b.userId, event := findEventById s b.eventId }

/-- Replace the first booking row whose id matches `b.id` (repository
`save` on a loaded row, keyed by primary key). -/
def replaceBookingFirst : List Booking → Booking → List Booking
  | [], _ => []
  | x :: xs, b => if x.id == b.id then b :: xs else x :: replaceBookingFirst xs b

/-- Delete the first booking row with the given id (repository `remove`,
which deletes by primary key). -/
def removeBookingFirstById : List Booking → Nat → List Booking
  | [], _ => []
  | x :: xs, i => if x.id == i then xs else x :: removeBookingFirstById xs i

/-- `BookingService.create`: check that the event exists (404), check that
the caller has no booking for this event yet (409), insert a new booking
(generated id, default status `pending`), then reload it with its
relations — the reload, copied from the source, reports a 404 if the row
it just saved cannot be found. -/
def bookingCreate (s : Store) (eventId : String) (notes : Option String)
    (userId : Nat) : Except DomainError (Store × BookingJoined) :=
  match findEventById s eventId with
  | none =>
    .error (.notFound ("El evento con ID " ++ eventId ++ " no fue encontrado"))
  | some _ =>
    match findBookingByUserAndEvent s userId eventId with
    | some _ =>
      .error (.conflict
        "Ya tienes una reserva para este evento. Puedes modificar tu reserva existente.")
    | none =>
      let booking : Booking :=
        { id := s.nextBookingId, userId := userId, eventId := eventId
          status := .pending, notes := notes }
      let s' : Store :=
        { s with
          bookings := s.bookings ++ [booking]
          nextBookingId := s.nextBookingId + 1 }
      match findBookingJoined s' booking.id with
      | none => .error (.notFound "Error al crear la reserva")
      | some result => .ok (s', result)

/-- `BookingService.findOne`: load by id with relations (404 when absent),
then enforce ownership (403 when the booking's `userId` differs from the
caller's). -/
def bookingFindOne (s : Store) (id : Nat) (userId : Nat) :
    Except DomainError BookingJoined :=
  match findBookingJoined s id with
  | none =>
    .error (.notFound ("La reserva con ID " ++ toString id ++ " no fue encontrada"))
  | some joined =>
    if joined.booking.userId ≠ userId then
      .error (.forbidden "No tienes permiso para ver esta reserva")
    else
      .ok joined

/-- `BookingService.update`: load by id (404 when absent), enforce
ownership (403), `Object.assign` the provided fields onto the row, save,
and reload with relations — again reporting a 404 if the reload fails. -/
def bookingUpdate (s : Store) (id : Nat) (dto : UpdateBookingDto)
    (userId : Nat) : Except DomainError (Store × BookingJoined) :=
  match findBookingById s id with
  | none =>
    .error (.notFound ("La reserva con ID " ++ toString id ++ " no fue encontrada"))
  | some booking =>
    if booking.userId ≠ userId then
      .error (.forbidden "No tienes permiso para modificar esta reserva")
    else
      let updated : Booking :=
        { booking with
          status := dto.status.getD booking.status
          notes :=
            match dto.notes with
            | some n => some n
            | none => booking.notes }
      let s' : Store := { s with bookings := replaceBookingFirst s.bookings updated }
      match findBookingJoined s' id with
      | none => .error (.notFound "Error al actualizar la reserva")
      | some result => .ok (s', result)

/-- `BookingService.remove`: load by id (404 when absent), enforce
ownership (403), then delete the row. -/
def bookingRemove (s : Store) (id : Nat) (userId : Nat) :
    Except DomainError Store :=
  match findBookingById s id with
  | none =>
    .error (.notFound ("La reserva con ID " ++ toString id ++ " no fue encontrada"))
  | some booking =>
    if booking.userId ≠ userId then
      .error (.forbidden "No tienes permiso para eliminar esta reserva")
    else
      .ok { s with bookings := removeBookingFirstById s.bookings booking.id }

/-- `RegisterDto`: email, password (≥6 chars, checked by the validation
pipe upstream of the service), display name, optional avatar and origin
world. -/
structure RegisterDto where
  email : String
  password : String
  displayName : String
  avatarUrl : Option String
  originWorld : Option String
deriving Repr

/-- The user object literal both `AuthService.register` and
`AuthService.login` put in the response body: id, email, displayName,
avatarUrl, originWorld, isAlive — and nothing else. -/
structure PublicUserView where
  id : Nat
  email : String
  displayName : String
  avatarUrl : Option String
  originWorld : Option String
  isAlive : Bool
deriving DecidableEq, Repr

/-- Build the public view from a user row. -/
def publicUserView (u : User) : PublicUserView :=
  { id := u.id, email := u.email, displayName := u.displayName
    avatarUrl := u.avatarUrl, originWorld := u.originWorld, isAlive := u.isAlive }

/-- The JWT payload built by `AuthService.generateToken`. -/
structure JwtPayload where
  sub : Nat
  email : String
  displayName : String
deriving DecidableEq, Repr

/-- `AuthService.generateToken`: build the payload and sign it (signing
itself is the external JWT library, passed in as `sign`). -/
def generateToken (sign : JwtPayload → String) (u : User) : String :=
  sign { sub := u.id, email := u.email, displayName := u.displayName }

/-- The `{ access_token, user }` body returned by register and login. -/
structure AuthResponse where
  accessToken : String
  user : PublicUserView
deriving Repr

/-- `AuthService.register`: reject when a user with this exact email is
already stored (409); otherwise hash the password (external bcrypt,
passed as `hash`), persist the new user with `isAlive := true`, and
return the token plus the public view. -/
def register (s : Store) (dto : RegisterDto) (hash : String → String)
    (sign : JwtPayload → String) (now : Nat) :
    Except DomainError (Store × AuthResponse) :=
  match findUserByEmail s dto.email with
  | some _ => .error (.conflict "El email ya está registrado")
  | none =>
    let user : User :=
      { id := s.nextUserId, email := dto.email, password := hash dto.password
        displayName := dto.displayName, avatarUrl := dto.avatarUrl
        originWorld := dto.originWorld, isAlive := true
        createdAt := now, updatedAt := now }
    let s' : Store := { s with users := s.users ++ [user], nextUserId := s.nextUserId + 1 }
    .ok (s', { accessToken := generateToken sign user, user := publicUserView user })

/-- `AuthService.login`: look the user up by email; a missing user and a
failed bcrypt comparison (external, passed as `compare`) both raise the
same `Unauthorized('Credenciales inválidas')`; on success return the
token and the public view. -/
def login (s : Store) (email password : String)
    (compare : String → String → Bool) (sign : JwtPayload → String) :
    Except DomainError AuthResponse :=
  match findUserByEmail s email with
  | none => .error (.unauthorized "Credenciales inválidas")
  | some user =>
    if compare password user.password then
      .ok { accessToken := generateToken sign user, user := publicUserView user }
    else
      .error (.unauthorized "Credenciales inválidas")

/-- The object literal `AuthController.getProfile` returns for the
authenticated user: the public fields plus the two timestamps. -/
structure ProfileView where
  id : Nat
  email : String
  displayName : String
  avatarUrl : Option String
  originWorld : Option String
  isAlive : Bool
  createdAt : Nat
  updatedAt : Nat
deriving DecidableEq, Repr

/-- `AuthController.getProfile` on the caller identity. -/
def getProfile (user : User) : ProfileView :=
  { id := user.id, email := user.email, displayName := user.displayName
    avatarUrl := user.avatarUrl, originWorld := user.originWorld
    isAlive := user.isAlive, createdAt := user.createdAt, updatedAt := user.updatedAt }

/-! ### Helper lemmas about the repository model -/

theorem normalizeBeforeInsert_id (e : Event) : (normalizeBeforeInsert e).id = e.id :=
  rfl

theorem normalizeBeforeInsert_attendees (e : Event) :
    (normalizeBeforeInsert e).attendees = e.attendees :=
  rfl

/-- Overwriting the row that `find?` located makes a subsequent `find?`
with the same id return the replacement. -/
theorem find?_replaceBookingFirst {bs : List Booking} {i : Nat} {b₀ b' : Booking}
    (h : bs.find? (fun x => x.id == i) = some b₀) (hid : b'.id = b₀.id) :
    (replaceBookingFirst bs b').find? (fun x => x.id == i) = some b' := by
  induction bs with
  | nil => simp at h
  | cons x xs ih =>
    simp only [replaceBookingFirst]
    by_cases hx : x.id = i
    · rw [List.find?_cons_of_pos _ (by simpa using hx)] at h
      injection h with h
      rw [if_pos (by simp [hid, ← h])]
      exact List.find?_cons_of_pos _ (by simp [hid, ← h, hx])
    · rw [List.find?_cons_of_neg _ (by simpa using hx)] at h
      have hb₀ : b₀.id = i := by simpa using List.find?_some h
      rw [if_neg (by simp [hid, hb₀, hx])]
      rw [List.find?_cons_of_neg _ (by simpa using hx)]
      exact ih h

/-- Overwriting the located row with a row that agrees on `f` leaves the
`f`-image of the table unchanged. -/
theorem map_replaceBookingFirst {γ : Type} {bs : List Booking} {i : Nat}
    {b₀ b' : Booking} (f : Booking → γ)
    (h : bs.find? (fun x => x.id == i) = some b₀) (hid : b'.id = b₀.id)
    (hf : f b' = f b₀) :
    (replaceBookingFirst bs b').map f = bs.map f := by
  induction bs with
  | nil => simp at h
  | cons x xs ih =>
    simp only [replaceBookingFirst]
    by_cases hx : x.id = i
    · rw [List.find?_cons_of_pos _ (by simpa using hx)] at h
      injection h with h
      rw [if_pos (by simp [hid, ← h])]
      simp [hf, h]
    · rw [List.find?_cons_of_neg _ (by simpa using hx)] at h
      have hb₀ : b₀.id = i := by simpa using List.find?_some h
      rw [if_neg (by simp [hid, hb₀, hx])]
      simp [ih h]

/-- Deleting a row yields a sublist of the table. -/
theorem removeBookingFirstById_sublist (bs : List Booking) (i : Nat) :
    List.Sublist (removeBookingFirstById bs i) bs := by
  induction bs with
  | nil => simp [removeBookingFirstById]
  | cons x xs ih =>
    simp only [removeBookingFirstById]
    split
    · exact List.sublist_cons_self x xs
    · exact ih.cons₂ x

/-- With duplicate-free primary keys (a database guarantee), looking a
stored row up by its own id returns exactly that row. -/
theorem find?_eq_some_of_mem_nodup {bs : List Booking} {b : Booking}
    (hmem : b ∈ bs) (hnd : (bs.map Booking.id).Nodup) :
    bs.find? (fun x => x.id == b.id) = some b := by
  induction bs with
  | nil => simp at hmem
  | cons x xs ih =>
    simp only [List.map_cons, List.nodup_cons] at hnd
    rcases List.mem_cons.mp hmem with hEq | hmem'
    · rw [hEq]
      exact List.find?_cons_of_pos _ (by simp)
    · have hx : ¬(x.id = b.id) := by
        intro hEq
        exact hnd.1 (hEq ▸ List.mem_map_of_mem Booking.id hmem')
      rw [List.find?_cons_of_neg _ (by simpa using hx)]
      exact ih hmem' hnd.2

/-- Event-table analogue of `find?_replaceBookingFirst`. -/
theorem find?_replaceEventFirst {es : List Event} {i : String} {e₀ e' : Event}
    (h : es.find? (fun x => x.id == i) = some e₀) (hid : e'.id = e₀.id) :
    (replaceEventFirst es e').find? (fun x => x.id == i) = some e' := by
  induction es with
  | nil => simp at h
  | cons x xs ih =>
    simp only [replaceEventFirst]
    by_cases hx : x.id = i
    · rw [List.find?_cons_of_pos _ (by simpa using hx)] at h
      injection h with h
      rw [if_pos (by simp [hid, ← h])]
      exact List.find?_cons_of_pos _ (by simp [hid, ← h, hx])
    · rw [List.find?_cons_of_neg _ (by simpa using hx)] at h
      have he₀ : e₀.id = i := by simpa using List.find?_some h
      rw [if_neg (by simp [hid, he₀, hx])]
      rw [List.find?_cons_of_neg _ (by simpa using hx)]
      exact ih h

/-- The new booking row `create` builds at the save point. -/
def newBookingRow (s : Store) (eventId : String) (notes : Option String)
    (userId : Nat) : Booking :=
  { id := s.nextBookingId, userId := userId, eventId := eventId
    status := .pending, notes := notes }

/-- The store after `create` persists its new row. -/
def storeAfterCreate (s : Store) (eventId : String) (notes : Option String)
    (userId : Nat) : Store :=
  { s with
    bookings := s.bookings ++ [newBookingRow s eventId notes userId]
    nextBookingId := s.nextBookingId + 1 }

/-- `create` fails 404 when the event id resolves to no event. -/
theorem bookingCreate_eventMissing {s : Store} {eid : String}
    {notes : Option String} {uid : Nat} (h : findEventById s eid = none) :
    bookingCreate s eid notes uid =
      .error (.notFound ("El evento con ID " ++ eid ++ " no fue encontrado")) := by
  simp [bookingCreate, h]

/-- `create` fails 409 when the caller already has a booking (of any
status) for this event; the pre-check consults only `userId` and
`eventId`. -/
theorem bookingCreate_conflict {s : Store} {eid : String}
    {notes : Option String} {uid : Nat}
    (h₁ : (findEventById s eid).isSome)
    (h₂ : ∃ b ∈ s.bookings, b.userId = uid ∧ b.eventId = eid) :
    bookingCreate s eid notes uid =
      .error (.conflict
        "Ya tienes una reserva para este evento. Puedes modificar tu reserva existente.") := by
  obtain ⟨e, he⟩ := Option.isSome_iff_exists.mp h₁
  obtain ⟨b, hb, hbu, hbe⟩ := h₂
  have hfound : (findBookingByUserAndEvent s uid eid).isSome := by
    unfold findBookingByUserAndEvent
    exact List.find?_isSome.mpr ⟨b, hb, by simp [hbu, hbe]⟩
  obtain ⟨b', hb'⟩ := Option.isSome_iff_exists.mp hfound
  simp [bookingCreate, he, hb']

/-- When both pre-checks pass and the auto-increment id is fresh (the
database guarantee for a generated primary key), `create` persists
exactly one new pending booking for the caller and returns it joined with
its user and event rows. -/
theorem bookingCreate_ok {s : Store} {eid : String} {notes : Option String}
    {uid : Nat} {e : Event}
    (h₁ : findEventById s eid = some e)
    (h₂ : findBookingByUserAndEvent s uid eid = none)
    (h₃ : ∀ b ∈ s.bookings, b.id ≠ s.nextBookingId) :
    bookingCreate s eid notes uid =
      .ok (storeAfterCreate s eid notes uid,
        { booking := newBookingRow s eid notes uid
          user := findUserById s uid
          event := findEventById s eid }) := by
  have hfresh : s.bookings.find? (fun x => x.id == s.nextBookingId) = none :=
    List.find?_eq_none.mpr (fun b hb => by simpa using h₃ b hb)
  have h₁' : s.events.find? (fun x => x.id == eid) = some e := h₁
  simp [bookingCreate, h₁', h₂, findBookingJoined, findBookingById,
    storeAfterCreate, newBookingRow, List.find?_append, hfresh,
    findUserById, findEventById]

/-- Whenever `create` reaches its save, the post-save reload finds a row,
so the call returns `ok` — without any freshness assumption. -/
theorem bookingCreate_reachesOk {s : Store} {eid : String}
    {notes : Option String} {uid : Nat}
    (h₁ : (findEventById s eid).isSome)
    (h₂ : findBookingByUserAndEvent s uid eid = none) :
    ∃ p, bookingCreate s eid notes uid = .ok p := by
  obtain ⟨e, he⟩ := Option.isSome_iff_exists.mp h₁
  have he' : s.events.find? (fun x => x.id == eid) = some e := he
  cases hfind : s.bookings.find? (fun x => x.id == s.nextBookingId) with
  | none =>
    exact ⟨(storeAfterCreate s eid notes uid,
      { booking := newBookingRow s eid notes uid
        user := findUserById s uid
        event := findEventById s eid }), by
      simp [bookingCreate, he', h₂, findBookingJoined, findBookingById,
        storeAfterCreate, newBookingRow, List.find?_append, hfind,
        findUserById, findEventById]⟩
  | some y =>
    exact ⟨(storeAfterCreate s eid notes uid,
      { booking := y, user := findUserById s y.userId
        event := findEventById s y.eventId }), by
      simp [bookingCreate, he', h₂, findBookingJoined, findBookingById,
        storeAfterCreate, newBookingRow, List.find?_append, hfind,
        findUserById, findEventById]⟩

/-- Inversion of a successful `create`: both pre-checks passed and the
store gained exactly the new pending row. -/
theorem bookingCreate_ok_inv {s : Store} {eid : String} {notes : Option String}
    {uid : Nat} {s' : Store} {r : BookingJoined}
    (h : bookingCreate s eid notes uid = .ok (s', r)) :
    findBookingByUserAndEvent s uid eid = none ∧
    s' = storeAfterCreate s eid notes uid := by
  cases he : findEventById s eid with
  | none => rw [bookingCreate_eventMissing he] at h; exact absurd h (by simp)
  | some e =>
    cases hp : findBookingByUserAndEvent s uid eid with
    | some b =>
      have : bookingCreate s eid notes uid =
          .error (.conflict
            "Ya tienes una reserva para este evento. Puedes modificar tu reserva existente.") := by
        simp [bookingCreate, he, hp]
      rw [this] at h
      exact absurd h (by simp)
    | none =>
      refine ⟨rfl, ?_⟩
      have hmain : bookingCreate s eid notes uid =
          match findBookingJoined (storeAfterCreate s eid notes uid) s.nextBookingId with
          | none => .error (.notFound "Error al crear la reserva")
          | some result => .ok (storeAfterCreate s eid notes uid, result) := by
        simp [bookingCreate, he, hp, storeAfterCreate, newBookingRow]
      rw [hmain] at h
      cases hj : findBookingJoined (storeAfterCreate s eid notes uid) s.nextBookingId with
      | none => rw [hj] at h; exact absurd h (by simp)
      | some j =>
        rw [hj] at h
        simp only [Except.ok.injEq, Prod.mk.injEq] at h
        exact h.1.symm

/-- The row `update` writes back: `Object.assign` with a DTO carrying only
`status?` and `notes?` overwrites exactly the provided fields. -/
def updatedBookingRow (b : Booking) (dto : UpdateBookingDto) : Booking :=
  { b with
    status := dto.status.getD b.status
    notes :=
      match dto.notes with
      | some n => some n
      | none => b.notes }

/-- `update` fails 404 when no booking has the given id. -/
theorem bookingUpdate_notFound {s : Store} {id : Nat} {dto : UpdateBookingDto}
    {uid : Nat} (h : findBookingById s id = none) :
    bookingUpdate s id dto uid =
      .error (.notFound ("La reserva con ID " ++ toString id ++ " no fue encontrada")) := by
  simp [bookingUpdate, h]

/-- `update` fails 403 when the stored booking belongs to another user. -/
theorem bookingUpdate_forbidden {s : Store} {id : Nat} {dto : UpdateBookingDto}
    {uid : Nat} {b : Booking} (h : findBookingById s id = some b)
    (hne : ¬b.userId = uid) :
    bookingUpdate s id dto uid =
      .error (.forbidden "No tienes permiso para modificar esta reserva") := by
  simp [bookingUpdate, h, hne]

/-- `update` by the owner overwrites the row in place and returns it
reloaded with its relations; the post-save reload always finds it. -/
theorem bookingUpdate_ok {s : Store} {id : Nat} {dto : UpdateBookingDto}
    {uid : Nat} {b : Booking} (h : findBookingById s id = some b)
    (hown : b.userId = uid) :
    bookingUpdate s id dto uid =
      .ok ({ s with bookings := replaceBookingFirst s.bookings (updatedBookingRow b dto) },
        { booking := updatedBookingRow b dto
          user := findUserById s (updatedBookingRow b dto).userId
          event := findEventById s (updatedBookingRow b dto).eventId }) := by
  have h' : s.bookings.find? (fun x => x.id == id) = some b := h
  have hre : (replaceBookingFirst s.bookings (updatedBookingRow b dto)).find?
      (fun x => x.id == id) = some (updatedBookingRow b dto) :=
    find?_replaceBookingFirst h (by simp [updatedBookingRow])
  simp only [updatedBookingRow, hown] at hre
  simp [bookingUpdate, h', hown, findBookingJoined, findBookingById, hre,
    updatedBookingRow, findUserById, findEventById]

/-- Inversion of a successful `update`: the row existed, the caller owned
it, and the store changed only by overwriting that row. -/
theorem bookingUpdate_ok_inv {s : Store} {id : Nat} {dto : UpdateBookingDto}
    {uid : Nat} {s' : Store} {r : BookingJoined}
    (h : bookingUpdate s id dto uid = .ok (s', r)) :
    ∃ b, findBookingById s id = some b ∧ b.userId = uid ∧
      s' = { s with bookings := replaceBookingFirst s.bookings (updatedBookingRow b dto) } := by
  cases hb : findBookingById s id with
  | none => rw [bookingUpdate_notFound hb] at h; exact absurd h (by simp)
  | some b =>
    by_cases hown : b.userId = uid
    · refine ⟨b, rfl, hown, ?_⟩
      rw [bookingUpdate_ok hb hown] at h
      simp only [Except.ok.injEq, Prod.mk.injEq] at h
      exact h.1.symm
    · rw [bookingUpdate_forbidden hb hown] at h; exact absurd h (by simp)

/-- `remove` fails 404 when no booking has the given id. -/
theorem bookingRemove_notFound {s : Store} {id uid : Nat}
    (h : findBookingById s id = none) :
    bookingRemove s id uid =
      .error (.notFound ("La reserva con ID " ++ toString id ++ " no fue encontrada")) := by
  simp [bookingRemove, h]

/-- `remove` fails 403 when the stored booking belongs to another user. -/
theorem bookingRemove_forbidden {s : Store} {id uid : Nat} {b : Booking}
    (h : findBookingById s id = some b) (hne : ¬b.userId = uid) :
    bookingRemove s id uid =
      .error (.forbidden "No tienes permiso para eliminar esta reserva") := by
  simp [bookingRemove, h, hne]

/-- `remove` by the owner deletes the row. -/
theorem bookingRemove_ok {s : Store} {id uid : Nat} {b : Booking}
    (h : findBookingById s id = some b) (hown : b.userId = uid) :
    bookingRemove s id uid =
      .ok { s with bookings := removeBookingFirstById s.bookings b.id } := by
  simp [bookingRemove, h, hown]

/-- Inversion of a successful `remove`. -/
theorem bookingRemove_ok_inv {s : Store} {id uid : Nat} {s' : Store}
    (h : bookingRemove s id uid = .ok s') :
    ∃ b, findBookingById s id = some b ∧ b.userId = uid ∧
      s' = { s with bookings := removeBookingFirstById s.bookings b.id } := by
  cases hb : findBookingById s id with
  | none => rw [bookingRemove_notFound hb] at h; exact absurd h (by simp)
  | some b =>
    by_cases hown : b.userId = uid
    · refine ⟨b, rfl, hown, ?_⟩
      rw [bookingRemove_ok hb hown] at h
      simp only [Except.ok.injEq] at h
      exact h.symm
    · rw [bookingRemove_forbidden hb hown] at h; exact absurd h (by simp)

/-- `findOne` fails 404 when no booking has the given id. -/
theorem bookingFindOne_notFound {s : Store} {id uid : Nat}
    (h : findBookingById s id = none) :
    bookingFindOne s id uid =
      .error (.notFound ("La reserva con ID " ++ toString id ++ " no fue encontrada")) := by
  simp [bookingFindOne, findBookingJoined, h]

/-- `findOne` fails 403 when the stored booking belongs to another user. -/
theorem bookingFindOne_forbidden {s : Store} {id uid : Nat} {b : Booking}
    (h : findBookingById s id = some b) (hne : ¬b.userId = uid) :
    bookingFindOne s id uid =
      .error (.forbidden "No tienes permiso para ver esta reserva") := by
  simp [bookingFindOne, findBookingJoined, h, hne]

/-! ### Claim theorems -/

/-- The per-(userId, eventId) key of a booking row. -/
def bookingKeys (bs : List Booking) : List (Nat × String) :=
  bs.map (fun b => (b.userId, b.eventId))

/-- At most one booking exists per (userId, eventId) pair. -/
def UniquePerPair (bs : List Booking) : Prop :=
  (bookingKeys bs).Nodup

/-- C1: every Booking Core operation preserves the at-most-one-booking-per
(userId, eventId) invariant: a successful Create (which refuses with
Conflict whenever a booking for the pair already exists on an existing
event), a successful Update (which can never change `userId` or `eventId`
— witnessed here by the whole table keeping its (id, userId, eventId)
triples), and a successful Remove all map stores satisfying the invariant
to stores satisfying it. -/
theorem c1_uniqueness_preserved :
    ∀ s : Store, UniquePerPair s.bookings →
      (∀ eid notes uid s' r, bookingCreate s eid notes uid = .ok (s', r) →
        UniquePerPair s'.bookings) ∧
      (∀ id dto uid s' r, bookingUpdate s id dto uid = .ok (s', r) →
        UniquePerPair s'.bookings ∧
        s'.bookings.map (fun b => (b.id, b.userId, b.eventId)) =
          s.bookings.map (fun b => (b.id, b.userId, b.eventId))) ∧
      (∀ id uid s', bookingRemove s id uid = .ok s' →
        UniquePerPair s'.bookings) ∧
      (∀ eid notes uid, (findEventById s eid).isSome →
        (∃ b ∈ s.bookings, b.userId = uid ∧ b.eventId = eid) →
        bookingCreate s eid notes uid =
          .error (.conflict
            "Ya tienes una reserva para este evento. Puedes modificar tu reserva existente.")) := by
  intro s hU
  refine ⟨?_, ?_, ?_, fun eid notes uid h₁ h₂ => bookingCreate_conflict h₁ h₂⟩
  · intro eid notes uid s' r h
    obtain ⟨hnone, hs'⟩ := bookingCreate_ok_inv h
    subst hs'
    unfold UniquePerPair bookingKeys storeAfterCreate at *
    rw [List.map_append]
    refine List.nodup_append.mpr ⟨hU, by simp, ?_⟩
    intro k hk hk'
    simp only [List.map_cons, List.map_nil, List.mem_singleton, newBookingRow] at hk'
    obtain ⟨b, hb, hkey⟩ := List.mem_map.mp hk
    have := List.find?_eq_none.mp hnone b hb
    rw [hk'] at hkey
    simp only [Prod.mk.injEq] at hkey
    exact this (by simp [hkey.1, hkey.2])
  · intro id dto uid s' r h
    obtain ⟨b, hb, hown, hs'⟩ := bookingUpdate_ok_inv h
    subst hs'
    constructor
    · have hkeys : bookingKeys (replaceBookingFirst s.bookings (updatedBookingRow b dto)) =
          bookingKeys s.bookings :=
        map_replaceBookingFirst _ hb (by simp [updatedBookingRow])
          (by simp [updatedBookingRow])
      unfold UniquePerPair
      rw [hkeys]
      exact hU
    · exact map_replaceBookingFirst _ hb (by simp [updatedBookingRow])
        (by simp [updatedBookingRow])
  · intro id uid s' h
    obtain ⟨b, hb, hown, hs'⟩ := bookingRemove_ok_inv h
    subst hs'
    exact List.Nodup.sublist
      (List.Sublist.map _ (removeBookingFirstById_sublist s.bookings b.id)) hU

/-- Concrete store for exercising the booking claims: one user owning one
pending booking on one existing event. -/
def wStore : Store :=
  { users := [⟨1, "a@x.com", "#pw", "A", none, none, true, 0, 0⟩]
    events := [⟨"e1", "T", none, 0, none, none, []⟩]
    bookings := [⟨1, 1, "e1", .pending, none⟩]
    nextUserId := 2
    nextBookingId := 2 }

/-- C1 witness: the invariant holds in `wStore` and is preserved by a
concrete successful create for a second user. -/
theorem c1_witness :
    UniquePerPair wStore.bookings ∧
    ∀ s' r, bookingCreate wStore "e1" none 2 = .ok (s', r) →
      UniquePerPair s'.bookings := by
  have h : UniquePerPair wStore.bookings := by
    unfold UniquePerPair bookingKeys wStore
    simp
  exact ⟨h, fun s' r hok =>
    (c1_uniqueness_preserved wStore h).1 "e1" none 2 s' r hok⟩

/-- C2: on every stored booking, a caller who is not the owner gets
Forbidden (never NotFound, never success) from Get, Update and Remove —
and since the operations only return a changed store inside `.ok`, an
error leaves the store untouched; on an id that resolves to no booking,
the same operations yield NotFound.  Existence is checked before
ownership: the NotFound branch fires independently of the caller. -/
theorem c2_ownership_gate :
    ∀ (s : Store) (b : Booking) (u : Nat) (dto : UpdateBookingDto) (id : Nat),
      (b ∈ s.bookings → (s.bookings.map Booking.id).Nodup → ¬b.userId = u →
        bookingFindOne s b.id u =
          .error (.forbidden "No tienes permiso para ver esta reserva") ∧
        bookingUpdate s b.id dto u =
          .error (.forbidden "No tienes permiso para modificar esta reserva") ∧
        bookingRemove s b.id u =
          .error (.forbidden "No tienes permiso para eliminar esta reserva")) ∧
      (findBookingById s id = none →
        bookingFindOne s id u =
          .error (.notFound ("La reserva con ID " ++ toString id ++ " no fue encontrada")) ∧
        bookingUpdate s id dto u =
          .error (.notFound ("La reserva con ID " ++ toString id ++ " no fue encontrada")) ∧
        bookingRemove s id u =
          .error (.notFound ("La reserva con ID " ++ toString id ++ " no fue encontrada"))) := by
  intro s b u dto id
  constructor
  · intro hmem hnd hne
    have hfind : findBookingById s b.id = some b :=
      find?_eq_some_of_mem_nodup hmem hnd
    exact ⟨bookingFindOne_forbidden hfind hne,
      bookingUpdate_forbidden hfind hne,
      bookingRemove_forbidden hfind hne⟩
  · intro hnone
    exact ⟨bookingFindOne_notFound hnone,
      bookingUpdate_notFound hnone,
      bookingRemove_notFound hnone⟩

/-- C2 witness: caller 2 on user 1's stored booking gets Forbidden from
all three operations, and id 99 yields NotFound. -/
theorem c2_witness :
    (bookingFindOne wStore 1 2 =
        .error (.forbidden "No tienes permiso para ver esta reserva") ∧
      bookingUpdate wStore 1 ⟨none, none⟩ 2 =
        .error (.forbidden "No tienes permiso para modificar esta reserva") ∧
      bookingRemove wStore 1 2 =
        .error (.forbidden "No tienes permiso para eliminar esta reserva")) ∧
    bookingFindOne wStore 99 2 =
      .error (.notFound ("La reserva con ID " ++ toString 99 ++ " no fue encontrada")) := by
  have h := c2_ownership_gate wStore ⟨1, 1, "e1", .pending, none⟩ 2 ⟨none, none⟩ 99
  exact ⟨h.1 (by decide) (by decide) (by decide), (h.2 (by decide)).1⟩

/-- C3: Create checks the event first (404 when the event id resolves to
nothing), then refuses with Conflict when any booking — whatever its
status — already links the caller to this event, and otherwise persists
exactly one new pending booking carrying the caller's id, the event id
and the notes, returning it joined with the user and event rows.  An
error returns no store, so the store is unchanged on both failure
branches. -/
theorem c3_create_semantics :
    ∀ (s : Store) (eid : String) (notes : Option String) (uid : Nat),
      (findEventById s eid = none →
        bookingCreate s eid notes uid =
          .error (.notFound ("El evento con ID " ++ eid ++ " no fue encontrado"))) ∧
      ((findEventById s eid).isSome →
        (∃ b ∈ s.bookings, b.userId = uid ∧ b.eventId = eid) →
        bookingCreate s eid notes uid =
          .error (.conflict
            "Ya tienes una reserva para este evento. Puedes modificar tu reserva existente.")) ∧
      (∀ e, findEventById s eid = some e →
        findBookingByUserAndEvent s uid eid = none →
        (∀ b ∈ s.bookings, b.id ≠ s.nextBookingId) →
        bookingCreate s eid notes uid =
          .ok (storeAfterCreate s eid notes uid,
            { booking := newBookingRow s eid notes uid
              user := findUserById s uid
              event := findEventById s eid })) := by
  intro s eid notes uid
  exact ⟨bookingCreate_eventMissing,
    fun h₁ h₂ => bookingCreate_conflict h₁ h₂,
    fun e he h₂ h₃ => bookingCreate_ok he h₂ h₃⟩

/-- C3 witness: a missing event yields 404, the existing (1, e1) booking
makes a second create for user 1 yield 409, and user 2's create succeeds
with the new pending row. -/
theorem c3_witness :
    bookingCreate wStore "nope" none 1 =
      .error (.notFound ("El evento con ID " ++ "nope" ++ " no fue encontrado")) ∧
    bookingCreate wStore "e1" none 1 =
      .error (.conflict
        "Ya tienes una reserva para este evento. Puedes modificar tu reserva existente.") ∧
    bookingCreate wStore "e1" none 2 =
      .ok (storeAfterCreate wStore "e1" none 2,
        { booking := newBookingRow wStore "e1" none 2
          user := findUserById wStore 2
          event := findEventById wStore "e1" }) := by
  have h₁ := (c3_create_semantics wStore "nope" none 1).1 (by decide)
  have h₂ := (c3_create_semantics wStore "e1" none 1).2.1 (by decide)
    ⟨⟨1, 1, "e1", .pending, none⟩, by decide, by decide, by decide⟩
  have h₃ := (c3_create_semantics wStore "e1" none 2).2.2
    ⟨"e1", "T", none, 0, none, none, []⟩ (by decide) (by decide)
    (by intro b hb; fin_cases hb; decide)
  exact ⟨h₁, h₂, h₃⟩

/-- C10: in the sequential model the post-save reloads cannot fail — once
Create passes its two pre-checks it returns `ok` (never the "Error al
crear la reserva" 404), and once Update finds an owned booking it returns
`ok` (never the "Error al actualizar la reserva" 404): saving then
reloading by the saved id always finds a row. -/
theorem c10_postSaveReload_unreachable :
    ∀ (s : Store) (eid : String) (notes : Option String) (uid : Nat)
      (id : Nat) (dto : UpdateBookingDto),
      ((findEventById s eid).isSome →
        findBookingByUserAndEvent s uid eid = none →
        ∃ p, bookingCreate s eid notes uid = .ok p) ∧
      (∀ b, findBookingById s id = some b → b.userId = uid →
        ∃ q, bookingUpdate s id dto uid = .ok q) := by
  intro s eid notes uid id dto
  exact ⟨fun h₁ h₂ => bookingCreate_reachesOk h₁ h₂,
    fun b hb hown => ⟨_, bookingUpdate_ok hb hown⟩⟩

/-- C10 witness: concrete create (user 2) and update (owner 1) both
return `ok`. -/
theorem c10_witness :
    (∃ p, bookingCreate wStore "e1" none 2 = .ok p) ∧
    (∃ q, bookingUpdate wStore 1 ⟨some .confirmed, none⟩ 1 = .ok q) := by
  have h1 := c10_postSaveReload_unreachable wStore "e1" none 2 1
    ⟨some .confirmed, none⟩
  have h2 := c10_postSaveReload_unreachable wStore "e1" none 1 1
    ⟨some .confirmed, none⟩
  exact ⟨h1.1 (by decide) (by decide),
    h2.2 ⟨1, 1, "e1", .pending, none⟩ (by decide) rfl⟩

theorem normalizeTitle_empty : normalizeTitle "" = "" := by decide

/-- An empty store for exercising the event claims. -/
def emptyStore : Store :=
  { users := [], events := [], bookings := [], nextUserId := 1, nextBookingId := 1 }

/-- The event-create DTO of the spec's normalization example. -/
def c4Dto : CreateEventDto :=
  { title := "  conference   X  ", description := none, date := 0, location := none }

/-- C4 counterexample: creating an event titled `"  conference   X  "`
stores the title `"Conference   X"` — the hook preserves interior runs of
spaces — not the single-spaced `"Conference X"` the claim requires. -/
theorem c4_counterexample :
    (eventCreate emptyStore c4Dto "e1" none).2.title = "Conference   X" ∧
    ¬(eventCreate emptyStore c4Dto "e1" none).2.title = "Conference X" ∧
    (eventCreate emptyStore c4Dto "e1" none).1.events.map Event.title =
      ["Conference   X"] := by
  decide

/-- C4 (amended): on every event create, and on every event update that
supplies a title, the stored title is the input title trimmed,
lowercased, and capitalized per space-separated word with interior space
runs preserved (`normalizeTitle`); in particular "  conference   X  " is
stored as "Conference   X". -/
theorem c4_title_normalization :
    (∀ (s : Store) (dto : CreateEventDto) (gid : String)
      (imgs : Option (List String)),
      (eventCreate s dto gid imgs).2.title = normalizeTitle dto.title ∧
      (eventCreate s dto gid imgs).1.events =
        s.events ++ [(eventCreate s dto gid imgs).2]) ∧
    (∀ (s : Store) (id : String) (dto : UpdateEventDto) (t : String),
      dto.title = some t → (findEventById s id).isSome →
      ∃ s' e', eventUpdate s id dto = .ok (s', e') ∧
        e'.title = normalizeTitle t) := by
  constructor
  · intro s dto gid imgs
    constructor
    · by_cases hT : dto.title = ""
      · simp [eventCreate, saveNewEvent, normalizeBeforeInsert, hT,
          normalizeTitle_empty]
      · simp [eventCreate, saveNewEvent, normalizeBeforeInsert, hT]
    · simp [eventCreate, saveNewEvent]
  · intro s id dto t ht hs
    obtain ⟨e, he⟩ := Option.isSome_iff_exists.mp hs
    refine ⟨_, _, by rw [eventUpdate, he], ?_⟩
    by_cases hT : t = ""
    · simp [saveExistingEvent, normalizeBeforeUpdate, normalizeBeforeInsert,
        ht, hT, normalizeTitle_empty]
    · simp [saveExistingEvent, normalizeBeforeUpdate, normalizeBeforeInsert,
        ht, hT]

/-- C4 witness: a concrete update supplying the title
`" spring  festival"` stores `normalizeTitle " spring  festival"`. -/
theorem c4_witness :
    ∃ s' e',
      eventUpdate
        { users := [], events := [⟨"e1", "T", none, 0, none, none, []⟩]
          bookings := [], nextUserId := 1, nextBookingId := 1 }
        "e1" ⟨some " spring  festival", none, none, none⟩ = .ok (s', e') ∧
      e'.title = normalizeTitle " spring  festival" :=
  c4_title_normalization.2
    { users := [], events := [⟨"e1", "T", none, 0, none, none, []⟩]
      bookings := [], nextUserId := 1, nextBookingId := 1 }
    "e1" ⟨some " spring  festival", none, none, none⟩ " spring  festival"
    rfl (by decide)

/-- C5: AddAttendee 404s when the event is missing, 404s when the user is
missing, rejects with the "already registered" validation error when the
id is already in the attendee set (membership tested by id equality), and
otherwise appends exactly that user and persists; calling it twice with
the same pair yields success then the validation failure, with the
attendee set growing by exactly one across both calls. -/
theorem c5_addAttendee :
    ∀ (s : Store) (eid : String) (uid : Nat),
      (findEventById s eid = none →
        registerUserToEvent s eid uid =
          .error (.notFound ("Event with id " ++ eid ++ " was not found"))) ∧
      (∀ e, findEventById s eid = some e → findUserById s uid = none →
        registerUserToEvent s eid uid =
          .error (.notFound ("User with id " ++ toString uid ++ " was not found"))) ∧
      (∀ e, findEventById s eid = some e → (findUserById s uid).isSome →
        (∃ a ∈ e.attendees, a.id = uid) →
        registerUserToEvent s eid uid =
          .error (.badRequest ("User with id " ++ toString uid ++
            " is already registered to event " ++ eid))) ∧
      (∀ e usr, findEventById s eid = some e → findUserById s uid = some usr →
        (∀ a ∈ e.attendees, ¬a.id = uid) →
        ∃ s' e', registerUserToEvent s eid uid = .ok (s', e') ∧
          e'.attendees = e.attendees ++ [usr] ∧
          findEventById s' eid = some e' ∧
          registerUserToEvent s' eid uid =
            .error (.badRequest ("User with id " ++ toString uid ++
              " is already registered to event " ++ eid)) ∧
          e'.attendees.length = e.attendees.length + 1) := by
  intro s eid uid
  refine ⟨fun h => by simp [registerUserToEvent, h], ?_, ?_, ?_⟩
  · intro e he hu
    simp [registerUserToEvent, he, hu]
  · intro e he hu hex
    obtain ⟨u', hu'⟩ := Option.isSome_iff_exists.mp hu
    obtain ⟨a, ha, haid⟩ := hex
    have hany : e.attendees.any (fun x => x.id == uid) = true :=
      List.any_eq_true.mpr ⟨a, ha, by simp [haid]⟩
    simp [registerUserToEvent, he, hu', hany]
  · intro e usr he hu hno
    have husr : usr.id = uid := by simpa using List.find?_some hu
    have hany : e.attendees.any (fun x => x.id == uid) = false :=
      List.any_eq_false.mpr (fun a ha => by simp [hno a ha])
    generalize hE : normalizeBeforeUpdate { e with attendees := e.attendees ++ [usr] } = E
    generalize hS : ({ s with events := replaceEventFirst s.events E } : Store) = S
    have hok : registerUserToEvent s eid uid = .ok (S, E) := by
      rw [← hE, ← hS, ← hE]
      simp [registerUserToEvent, he, hu, hany, saveExistingEvent]
    have hatt : E.attendees = e.attendees ++ [usr] := by
      rw [← hE]; exact normalizeBeforeInsert_attendees _
    have hfind : findEventById S eid = some E := by
      rw [← hS]
      exact find?_replaceEventFirst he (by rw [← hE]; rfl)
    have hu₂ : findUserById S uid = some usr := by rw [← hS]; exact hu
    have hany₂ : E.attendees.any (fun x => x.id == uid) = true :=
      List.any_eq_true.mpr ⟨usr, by simp [hatt], by simp [husr]⟩
    refine ⟨S, E, hok, hatt, hfind, ?_, by simp [hatt]⟩
    simp [registerUserToEvent, hfind, hu₂, hany₂]

/-- C5 witness: registering user 1 to event e1 in a store where the
attendee set is empty succeeds and the second identical call fails with
the validation error. -/
theorem c5_witness :
    ∃ s' e',
      registerUserToEvent wStore "e1" 1 = .ok (s', e') ∧
      e'.attendees = [] ++ [⟨1, "a@x.com", "#pw", "A", none, none, true, 0, 0⟩] ∧
      findEventById s' "e1" = some e' ∧
      registerUserToEvent s' "e1" 1 =
        .error (.badRequest ("User with id " ++ toString 1 ++
          " is already registered to event " ++ "e1")) ∧
      e'.attendees.length = 0 + 1 :=
  (c5_addAttendee wStore "e1" 1).2.2.2
    ⟨"e1", "T", none, 0, none, none, []⟩
    ⟨1, "a@x.com", "#pw", "A", none, none, true, 0, 0⟩
    (by decide) (by decide) (by intro a ha; simp at ha)

/-- C6: RemoveAttendee 404s when the event is missing; when the id is not
in the attendee set it fails with the "not registered" validation error —
and, the error carrying no store, the attendee set is unchanged;
otherwise it filters exactly the attendees with that id out of the set
and persists the result. -/
theorem c6_removeAttendee :
    ∀ (s : Store) (eid : String) (uid : Nat),
      (findEventById s eid = none →
        unregisterUserFromEvent s eid uid =
          .error (.notFound ("Event with id " ++ eid ++ " was not found"))) ∧
      (∀ e, findEventById s eid = some e → (∀ a ∈ e.attendees, ¬a.id = uid) →
        unregisterUserFromEvent s eid uid =
          .error (.badRequest ("User with id " ++ toString uid ++
            " is not registered to event " ++ eid))) ∧
      (∀ e, findEventById s eid = some e → (∃ a ∈ e.attendees, a.id = uid) →
        ∃ s' e', unregisterUserFromEvent s eid uid = .ok (s', e') ∧
          e'.attendees = e.attendees.filter (fun a => !(a.id == uid)) ∧
          findEventById s' eid = some e') := by
  intro s eid uid
  refine ⟨fun h => by simp [unregisterUserFromEvent, h], ?_, ?_⟩
  · intro e he hno
    have hidx : e.attendees.findIdx? (fun x => x.id == uid) = none :=
      List.findIdx?_eq_none_iff.mpr (fun a ha => by simp [hno a ha])
    simp [unregisterUserFromEvent, he, hidx]
  · intro e he hex
    cases hidx : e.attendees.findIdx? (fun x => x.id == uid) with
    | none =>
      exfalso
      obtain ⟨a, ha, haid⟩ := hex
      have := List.findIdx?_eq_none_iff.mp hidx a ha
      simp [haid] at this
    | some k =>
      generalize hE : normalizeBeforeUpdate
        { e with attendees := e.attendees.filter (fun a => !(a.id == uid)) } = E
      generalize hS : ({ s with events := replaceEventFirst s.events E } : Store) = S
      have hok : unregisterUserFromEvent s eid uid = .ok (S, E) := by
        rw [← hE, ← hS, ← hE]
        simp [unregisterUserFromEvent, he, hidx, saveExistingEvent]
      have hatt : E.attendees = e.attendees.filter (fun a => !(a.id == uid)) := by
        rw [← hE]; exact normalizeBeforeInsert_attendees _
      have hfind : findEventById S eid = some E := by
        rw [← hS]
        exact find?_replaceEventFirst he (by rw [← hE]; rfl)
      exact ⟨S, E, hok, hatt, hfind⟩

/-- C6 witness: removing a never-added user yields the validation error;
removing a present attendee succeeds and empties the set. -/
theorem c6_witness :
    unregisterUserFromEvent wStore "e1" 1 =
      .error (.badRequest ("User with id " ++ toString 1 ++
        " is not registered to event " ++ "e1")) ∧
    ∃ s' e',
      unregisterUserFromEvent
        { users := [], nextUserId := 1, nextBookingId := 1, bookings := []
          events := [⟨"e1", "T", none, 0, none, none,
            [⟨1, "a@x.com", "#pw", "A", none, none, true, 0, 0⟩]⟩] } "e1" 1 =
        .ok (s', e') ∧
      e'.attendees =
        List.filter (fun a => !(a.id == 1))
          [(⟨1, "a@x.com", "#pw", "A", none, none, true, 0, 0⟩ : User)] ∧
      findEventById s' "e1" = some e' := by
  constructor
  · exact (c6_removeAttendee wStore "e1" 1).2.1
      ⟨"e1", "T", none, 0, none, none, []⟩ (by decide)
      (by intro a ha; simp at ha)
  · exact (c6_removeAttendee
      { users := [], nextUserId := 1, nextBookingId := 1, bookings := []
        events := [⟨"e1", "T", none, 0, none, none,
          [⟨1, "a@x.com", "#pw", "A", none, none, true, 0, 0⟩]⟩] } "e1" 1).2.2
      ⟨"e1", "T", none, 0, none, none,
        [⟨1, "a@x.com", "#pw", "A", none, none, true, 0, 0⟩]⟩
      (by decide)
      ⟨⟨1, "a@x.com", "#pw", "A", none, none, true, 0, 0⟩, by decide, rfl⟩

/-- The user row `register` persists. -/
def registeredUser (s : Store) (dto : RegisterDto) (hash : String → String)
    (now : Nat) : User :=
  { id := s.nextUserId, email := dto.email, password := hash dto.password
    displayName := dto.displayName, avatarUrl := dto.avatarUrl
    originWorld := dto.originWorld, isAlive := true
    createdAt := now, updatedAt := now }

/-- `register` on a fresh email persists the hashed-password user and
returns the token with the public view. -/
theorem register_ok {s : Store} {dto : RegisterDto} {hash : String → String}
    {sign : JwtPayload → String} {now : Nat}
    (hF : findUserByEmail s dto.email = none) :
    register s dto hash sign now =
      .ok ({ s with users := s.users ++ [registeredUser s dto hash now],
                     nextUserId := s.nextUserId + 1 },
        { accessToken := generateToken sign (registeredUser s dto hash now)
          user := publicUserView (registeredUser s dto hash now) }) := by
  simp [register, hF, registeredUser]

/-- `register` on an already-stored email fails 409, whatever the other
fields are. -/
theorem register_conflict {s : Store} {dto : RegisterDto}
    {hash : String → String} {sign : JwtPayload → String} {now : Nat}
    (h : ∃ u ∈ s.users, u.email = dto.email) :
    register s dto hash sign now = .error (.conflict "El email ya está registrado") := by
  obtain ⟨u, hu, he⟩ := h
  have : (findUserByEmail s dto.email).isSome :=
    List.find?_isSome.mpr ⟨u, hu, by simp [he]⟩
  obtain ⟨u', hu'⟩ := Option.isSome_iff_exists.mp this
  simp [register, hu']

/-- Inversion of a successful `register`. -/
theorem register_ok_inv {s : Store} {dto : RegisterDto}
    {hash : String → String} {sign : JwtPayload → String} {now : Nat}
    {s' : Store} {resp : AuthResponse}
    (h : register s dto hash sign now = .ok (s', resp)) :
    findUserByEmail s dto.email = none ∧
    s' = { s with users := s.users ++ [registeredUser s dto hash now],
                  nextUserId := s.nextUserId + 1 } ∧
    resp = { accessToken := generateToken sign (registeredUser s dto hash now)
             user := publicUserView (registeredUser s dto hash now) } := by
  cases hF : findUserByEmail s dto.email with
  | some u =>
    have : register s dto hash sign now =
        .error (.conflict "El email ya está registrado") := by
      simp [register, hF]
    rw [this] at h
    exact absurd h (by simp)
  | none =>
    rw [register_ok hF] at h
    simp only [Except.ok.injEq, Prod.mk.injEq] at h
    exact ⟨rfl, h.1.symm, h.2.symm⟩

/-- Every successful `login` returns the public view of the user stored
under the requested email. -/
theorem login_ok_inv {s : Store} {em pw : String}
    {cmp : String → String → Bool} {sg : JwtPayload → String}
    {r : AuthResponse} (h : login s em pw cmp sg = .ok r) :
    ∃ v, findUserByEmail s em = some v ∧ r.user = publicUserView v := by
  cases hF : findUserByEmail s em with
  | none => simp [login, hF] at h
  | some v =>
    refine ⟨v, rfl, ?_⟩
    simp only [login, hF] at h
    by_cases hc : cmp pw v.password = true
    · rw [if_pos hc] at h
      simp only [Except.ok.injEq] at h
      rw [← h]
    · rw [if_neg hc] at h
      exact absurd h (by simp)

/-- C7: the two login failure modes — no user stored under the email, and
a stored user whose hash comparison rejects the password — both produce
the very same Unauthorized error: identical 401 status code and identical
generic message, so the response distinguishes nothing. -/
theorem c7_login_indistinguishable :
    ∀ (compare : String → String → Bool) (sign : JwtPayload → String)
      (s₁ s₂ : Store) (e₁ p₁ e₂ p₂ : String) (u : User),
      findUserByEmail s₁ e₁ = none →
      findUserByEmail s₂ e₂ = some u →
      compare p₂ u.password = false →
      ∃ err₁ err₂,
        login s₁ e₁ p₁ compare sign = .error err₁ ∧
        login s₂ e₂ p₂ compare sign = .error err₂ ∧
        err₁.statusCode = err₂.statusCode ∧
        err₁.message = err₂.message ∧
        err₁.statusCode = 401 := by
  intro compare sign s₁ s₂ e₁ p₁ e₂ p₂ u h₁ h₂ hcmp
  refine ⟨.unauthorized "Credenciales inválidas",
    .unauthorized "Credenciales inválidas", ?_, ?_, rfl, rfl, rfl⟩
  · simp [login, h₁]
  · simp [login, h₂, hcmp]

/-- C7 witness: unknown email vs wrong password on a concrete store. -/
theorem c7_witness :
    ∃ err₁ err₂,
      login emptyStore "ghost@x.com" "pw1234"
          (fun a b => a == b) (fun _ => "tok") = .error err₁ ∧
      login wStore "a@x.com" "wrong1"
          (fun a b => a == b) (fun _ => "tok") = .error err₂ ∧
      err₁.statusCode = err₂.statusCode ∧
      err₁.message = err₂.message ∧
      err₁.statusCode = 401 :=
  c7_login_indistinguishable (fun a b => a == b) (fun _ => "tok")
    emptyStore wStore "ghost@x.com" "pw1234" "a@x.com" "wrong1"
    ⟨1, "a@x.com", "#pw", "A", none, none, true, 0, 0⟩
    (by decide) (by decide) (by decide)

/-- C8: registering with an email equal (case-sensitive, exact) to any
stored user's email fails with Conflict — no user is created, since the
error returns no store — regardless of every other field; consequently a
second registration with the same email after a successful one always
yields Conflict. -/
theorem c8_duplicate_email :
    ∀ (s : Store) (dto : RegisterDto) (hash : String → String)
      (sign : JwtPayload → String) (now : Nat),
      ((∃ u ∈ s.users, u.email = dto.email) →
        register s dto hash sign now =
          .error (.conflict "El email ya está registrado")) ∧
      (∀ (s' : Store) (resp : AuthResponse) (dto₂ : RegisterDto)
        (hash₂ : String → String) (sign₂ : JwtPayload → String) (now₂ : Nat),
        register s dto hash sign now = .ok (s', resp) →
        dto₂.email = dto.email →
        register s' dto₂ hash₂ sign₂ now₂ =
          .error (.conflict "El email ya está registrado")) := by
  intro s dto hash sign now
  refine ⟨register_conflict, ?_⟩
  intro s' resp dto₂ hash₂ sign₂ now₂ hok hemail
  obtain ⟨hF, hs', hresp⟩ := register_ok_inv hok
  subst hs'
  exact register_conflict
    ⟨registeredUser s dto hash now, by simp, by simp [registeredUser, hemail]⟩

/-- C8 witness: registering `a@x.com` into the empty store succeeds; the
second registration with the same email and different fields conflicts. -/
theorem c8_witness :
    register
      { users :=
          [{ id := 1, email := "a@x.com", password := "#pw", displayName := "A"
             avatarUrl := none, originWorld := none, isAlive := true
             createdAt := 0, updatedAt := 0 }]
        events := [], bookings := [], nextUserId := 2, nextBookingId := 1 }
      { email := "a@x.com", password := "different", displayName := "B"
        avatarUrl := some "http://a", originWorld := some "W" }
      (fun p => String.append "#" p) (fun _ => "tok") 7 =
      .error (.conflict "El email ya está registrado") :=
  (c8_duplicate_email _ _ _ _ _).1
    ⟨{ id := 1, email := "a@x.com", password := "#pw", displayName := "A"
       avatarUrl := none, originWorld := none, isAlive := true
       createdAt := 0, updatedAt := 0 }, by decide, rfl⟩

/-- C9: a successful registration stores exactly one new user whose
persisted password is the salted hash of the plaintext — hence, whenever
the hash function never returns its input, never the plaintext itself —
and the response bodies never carry a password: the register response
exposes `publicUserView`, the profile body and the public view are
invariant under any change of the stored password, and every successful
login body likewise exposes only `publicUserView` of the stored user. -/
theorem c9_password_handling :
    ∀ (s : Store) (dto : RegisterDto) (hash : String → String)
      (sign : JwtPayload → String) (now : Nat),
      findUserByEmail s dto.email = none →
      ∃ s' resp u,
        register s dto hash sign now = .ok (s', resp) ∧
        s'.users = s.users ++ [u] ∧
        u.password = hash dto.password ∧
        ((∀ p, hash p ≠ p) → ¬u.password = dto.password) ∧
        resp.user = publicUserView u ∧
        (∀ (v : User) (p : String),
          publicUserView { v with password := p } = publicUserView v) ∧
        (∀ (v : User) (p : String),
          getProfile { v with password := p } = getProfile v) ∧
        (∀ (s₀ : Store) (em pw : String) (cmp : String → String → Bool)
          (sg : JwtPayload → String) (r : AuthResponse),
          login s₀ em pw cmp sg = .ok r →
          ∃ v, findUserByEmail s₀ em = some v ∧ r.user = publicUserView v) := by
  intro s dto hash sign now hF
  refine ⟨_, _, registeredUser s dto hash now, register_ok hF, rfl, rfl,
    ?_, rfl, fun v p => rfl, fun v p => rfl, fun s₀ em pw cmp sg r h => login_ok_inv h⟩
  intro hhyp heq
  exact hhyp dto.password heq

/-- C9 witness: registering into the empty store with the marker hash
`p ↦ "#" ++ p` stores `"#secret"`, which differs from `"secret"`. -/
theorem c9_witness :
    ∃ s' resp u,
      register emptyStore
        { email := "a@x.com", password := "secret", displayName := "A"
          avatarUrl := none, originWorld := none }
        (fun p => String.append "#" p) (fun _ => "tok") 0 = .ok (s', resp) ∧
      s'.users = emptyStore.users ++ [u] ∧
      u.password = String.append "#" "secret" ∧
      ((∀ p, String.append "#" p ≠ p) → ¬u.password = "secret") ∧
      resp.user = publicUserView u ∧
      (∀ (v : User) (p : String),
        publicUserView { v with password := p } = publicUserView v) ∧
      (∀ (v : User) (p : String),
        getProfile { v with password := p } = getProfile v) ∧
      (∀ (s₀ : Store) (em pw : String) (cmp : String → String → Bool)
        (sg : JwtPayload → String) (r : AuthResponse),
        login s₀ em pw cmp sg = .ok r →
        ∃ v, findUserByEmail s₀ em = some v ∧ r.user = publicUserView v) :=
  c9_password_handling emptyStore
    { email := "a@x.com", password := "secret", displayName := "A"
      avatarUrl := none, originWorld := none }
    (fun p => String.append "#" p) (fun _ => "tok") 0 (by decide)

end EventBackend
